import Mathlib

/-!
Verification development for the classifier-configuration layer of SecuML
(`secuml/core/classif/conf/classifiers/__init__.py`).

The Python code is shallowly embedded: configuration objects become records,
the class hierarchy relevant to `get_classifier_type` becomes an inductive
type with an explicit `issubclass` test, fallible operations return
`Except PyError`, and numpy supervision arrays become `List (Option Int)`
(with `Option.none` embedding Python `None`, the unset-label marker).
External collaborators that are part of the repository but outside the
excerpt (the annotations store, the generic `Conf`/`ConfFactory` mechanism,
the `HyperparamConf` subsystem) are modelled from the specification; each
such definition says so in its doc comment.
-/

set_option autoImplicit false
set_option linter.unusedVariables false

deriving instance DecidableEq for Except

namespace SecuML

/-- Embedding of the errors the code can surface: `MissingAnnotations` and
`AtLeastTwoClasses` are the two `SecuMLcoreException` subclasses defined in
the source (lines 57-68); the remaining constructors embed the built-in
Python exceptions reachable from the embedded operations. -/
inductive PyError where
  | missingAnnotations
  | atLeastTwoClasses
  | typeError (msg : String)
  | valueError (msg : String)
  | keyError (key : String)
deriving DecidableEq, Repr

/-- Embedding of `class ClassifierType(Enum)` (source lines 39-42). -/
inductive ClassifierType where
  | unsupervised
  | semisupervised
  | supervised
deriving DecidableEq, Repr

/-- Embedding of the Python class taxonomy that `get_classifier_type`
inspects: the abstract base `ClassifierConf`, the three paradigm bases
(each derives directly from `ClassifierConf`, source lines 180, 207, 230),
further subclasses built with `sub`, and classes unrelated to the hierarchy
(`other`). -/
inductive PyClass where
  | other (name : String)
  | classifierConfBase
  | supervisedBase
  | unsupervisedBase
  | semiSupervisedBase
  | sub (name : String) (parent : PyClass)
deriving DecidableEq, Repr

/-- Embedding of `class_.__name__`. -/
def PyClass.pyName : PyClass → String
  | .other n => n
  | .classifierConfBase => "ClassifierConf"
  | .supervisedBase => "SupervisedClassifierConf"
  | .unsupervisedBase => "UnsupervisedClassifierConf"
  | .semiSupervisedBase => "SemiSupervisedClassifierConf"
  | .sub n _ => n

/-- Embedding of Python `issubclass`: reflexive and transitive along the
parent chain; the three paradigm bases derive from `ClassifierConf`
(source lines 180, 207, 230). -/
def issubclass : PyClass → PyClass → Bool
  | .sub n p, d => decide (PyClass.sub n p = d) || issubclass p d
  | .supervisedBase, d =>
      decide (d = PyClass.supervisedBase) || decide (d = PyClass.classifierConfBase)
  | .unsupervisedBase, d =>
      decide (d = PyClass.unsupervisedBase) || decide (d = PyClass.classifierConfBase)
  | .semiSupervisedBase, d =>
      decide (d = PyClass.semiSupervisedBase) || decide (d = PyClass.classifierConfBase)
  | .classifierConfBase, d => decide (d = PyClass.classifierConfBase)
  | .other n, d => decide (PyClass.other n = d)

/-- Embedding of `get_classifier_type` (source lines 45-54): test, in order,
derivation from the unsupervised, semi-supervised, then supervised base;
a class deriving only from `ClassifierConf` maps to Python `None`
(embedded as `Option.none`); any other class raises `ValueError` naming
the offending type. -/
def get_classifier_type (class_ : PyClass) : Except PyError (Option ClassifierType) :=
  if issubclass class_ .unsupervisedBase then .ok (some .unsupervised)
  else if issubclass class_ .semiSupervisedBase then .ok (some .semisupervised)
  else if issubclass class_ .supervisedBase then .ok (some .supervised)
  else if issubclass class_ .classifierConfBase then .ok none
  else .error (.valueError (class_.pyName ++ " is not a classifier configuration."))

/-- A concrete classifier-configuration class as the factory registry stores
it: its Python name, its parent class, and the values its abstract methods
return (the name of `_get_model_class()`, `is_probabilist()`,
`get_feature_importance()`), which `_set_characteristics` (source lines
121-124 and 134-136) caches on every instance at construction time. -/
structure ConfClass where
  name : String
  parent : PyClass
  model_class_name : String
  probabilist : Bool
  feature_importance : Option String
deriving DecidableEq, Repr

/-- The `PyClass` view of a concrete configuration class. -/
def ConfClass.toPyClass (c : ConfClass) : PyClass := .sub c.name c.parent

/-- Modelled from the spec: the external `HyperparamConf` subsystem (spec
sections 1 and 3), a hyperparameter sub-configuration owned one-to-one by
each configuration and built via `from_args`, `from_json` or `get_default`.
Only its identity as a bag of values matters to the claims. -/
structure HyperparamConf where
  num_folds : Nat
  n_jobs : Int
  values : List (String × String)
deriving DecidableEq, Repr

/-- Modelled from the spec: `HyperparamConf.get_default(num_folds, n_jobs,
multiclass, class_, logger)` builds a default sub-configuration. -/
def HyperparamConf.get_default (num_folds : Nat) (n_jobs : Int) (multiclass : Bool) :
    HyperparamConf :=
  ⟨num_folds, n_jobs, []⟩

/-- Modelled from the spec: `HyperparamConf.from_json` rebuilds the
sub-configuration from its exported record; the round-trip contract of the
spec makes this the inverse of the export, embedded as the identity on the
record. -/
def HyperparamConf.from_json (obj : HyperparamConf) : HyperparamConf := obj

/-- Modelled from the spec: one view of the instances/annotations store
(spec section 1 lists it as an external collaborator exposing
`get_annotations` returning an object with `get_supervision(multiclass)`).
Each view holds per-instance label arrays; `Option.none` embeds an unset
label (Python `None`); set labels carry their integer coding. `labels`
backs the binary view and `families` the multiclass view. -/
structure Annotations where
  labels : List (Option Int)
  families : List (Option Int)
deriving DecidableEq, Repr

/-- Modelled from the spec: `annotations.get_supervision(multiclass)` returns
the family array when `multiclass` and the binary label array otherwise. -/
def Annotations.get_supervision (a : Annotations) (multiclass : Bool) : List (Option Int) :=
  if multiclass then a.families else a.labels

/-- Modelled from the spec: the instances store, with a working view and a
ground-truth view of the annotations. -/
structure Instances where
  annotations : Annotations
  ground_truth_annotations : Annotations
deriving DecidableEq, Repr

/-- Modelled from the spec: `instances.get_annotations(ground_truth)` selects
the ground-truth view or the working view. -/
def Instances.get_annotations (inst : Instances) (ground_truth : Bool) : Annotations :=
  if ground_truth then inst.ground_truth_annotations else inst.annotations

/-- A constructed classifier-configuration object: its concrete class, the
`multiclass` flag and the owned hyperparameter sub-configuration
(`ClassifierConf.__init__`, source lines 107-113). The per-class
characteristics cached by `_set_characteristics` live on `cls`. -/
structure ClassifierConf where
  cls : ConfClass
  multiclass : Bool
  hyperparam_conf : HyperparamConf
deriving DecidableEq, Repr

/-- Embedding of `ClassifierConf.__init__(self, multiclass, hyperparam_conf,
logger)` (source lines 107-113). -/
def ClassifierConf.init (cls : ConfClass) (multiclass : Bool)
    (hyperparam_conf : HyperparamConf) : ClassifierConf :=
  ⟨cls, multiclass, hyperparam_conf⟩

/-- Embedding of `SupervisedClassifierConf.__init__` (source lines 182-183):
forwards all three data arguments to the base constructor. -/
def SupervisedClassifierConf.init (cls : ConfClass) (multiclass : Bool)
    (hyperparam_conf : HyperparamConf) : ClassifierConf :=
  ClassifierConf.init cls multiclass hyperparam_conf

/-- Embedding of `SemiSupervisedClassifierConf.__init__` (source lines
232-233): forwards all three data arguments to the base constructor. -/
def SemiSupervisedClassifierConf.init (cls : ConfClass) (multiclass : Bool)
    (hyperparam_conf : HyperparamConf) : ClassifierConf :=
  ClassifierConf.init cls multiclass hyperparam_conf

/-- Embedding of `UnsupervisedClassifierConf.__init__(self, hyperparam_conf,
logger)` (source lines 209-210): it takes no `multiclass` argument and
hard-codes `False`. -/
def UnsupervisedClassifierConf.init (cls : ConfClass)
    (hyperparam_conf : HyperparamConf) : ClassifierConf :=
  ClassifierConf.init cls false hyperparam_conf

/-- The possible values of a supervision-extraction call: Python `None`, the
raw annotation array (entries possibly unset), an integer-cast array
(numpy astype with int), or a string-cast array (astype with str). -/
inductive SupervisionReturn where
  | pyNone
  | raw (v : List (Option Int))
  | ints (v : List Int)
  | strs (v : List String)
deriving DecidableEq, Repr

/-- Embedding of numpy astype to int over an object array of optional
integers: casting an unset (`None`) entry raises `TypeError`; otherwise the
integer values are returned. -/
def astypeInt : List (Option Int) → Except PyError (List Int)
  | [] => .ok []
  | none :: _ => .error (.typeError "int() argument cannot be NoneType")
  | some i :: rest => Except.map (fun v => i :: v) (astypeInt rest)

/-- Embedding of numpy astype to str over an object array of optional
integers. -/
def astypeStr (l : List (Option Int)) : List String :=
  l.map (fun x => match x with | some i => toString i | none => "None")

/-- Embedding of the base `ClassifierConf.get_supervision` (source lines
175-177): fetch the annotations for the requested view and return the raw
supervision array for the `multiclass` flag of this configuration. The
`check` argument is accepted and unused, and no validation of any kind is
performed here. -/
def ClassifierConf.get_supervision (conf : ClassifierConf) (inst : Instances)
    (ground_truth : Bool) (check : Bool) : List (Option Int) :=
  (inst.get_annotations ground_truth).get_supervision conf.multiclass

/-- Embedding of `SupervisedClassifierConf.get_supervision` (source lines
192-204): raise `MissingAnnotations` when any entry is unset (the source
tests `np.all(supervision != None)`); then, when `check`, raise
`AtLeastTwoClasses` when fewer than two distinct values are present (the
source tests `len(set(supervision)) < 2`, embedded as the length of
`List.dedup`); finally cast to strings when `multiclass` and to integers
otherwise. -/
def SupervisedClassifierConf.get_supervision (conf : ClassifierConf) (inst : Instances)
    (ground_truth : Bool) (check : Bool) : Except PyError SupervisionReturn :=
  let supervision := ClassifierConf.get_supervision conf inst ground_truth check
  if supervision.any Option.isNone then
    .error .missingAnnotations
  else if check && decide (supervision.dedup.length < 2) then
    .error .atLeastTwoClasses
  else if conf.multiclass then
    .ok (.strs (astypeStr supervision))
  else
    Except.map SupervisionReturn.ints (astypeInt supervision)

/-- Embedding of `UnsupervisedClassifierConf.supervision` (source lines
222-227). Note the method name in the source: it is `supervision`, not
`get_supervision`, so it does not override the base seam. Without ground
truth it returns Python `None`; otherwise it integer-casts the raw array
produced by the base method, with no validation. -/
def UnsupervisedClassifierConf.supervision (conf : ClassifierConf) (inst : Instances)
    (ground_truth : Bool) (check : Bool) : Except PyError SupervisionReturn :=
  if !ground_truth then .ok .pyNone
  else
    Except.map SupervisionReturn.ints
      (astypeInt (ClassifierConf.get_supervision conf inst ground_truth check))

/-- Embedding of the masked assignment `arr[mask] = x` over parallel lists. -/
def maskedAssign (v : List (Option Int)) (mask : List Bool) (x : Int) : List (Option Int) :=
  (v.zip mask).map (fun p => if p.2 then some x else p.1)

/-- Embedding of `copy.deepcopy` of a supervision array, as a value. (The
object-identity consequences of the deep copy are tracked separately by
`SemiSupervisedClassifierConf.get_supervision_heap`.) -/
def deepcopy (v : List (Option Int)) : List (Option Int) := v

/-- Embedding of `SemiSupervisedClassifierConf.get_supervision` (source lines
245-252): take the raw array from the base method
(`ClassifierConf.get_supervision`, which performs no missing-annotation
check), deep-copy it, overwrite the unset entries (the source computes the
mask `supervision == None`) with the sentinel `-1`, and integer-cast. -/
def SemiSupervisedClassifierConf.get_supervision (conf : ClassifierConf) (inst : Instances)
    (ground_truth : Bool) (check : Bool) : Except PyError SupervisionReturn :=
  let supervision := ClassifierConf.get_supervision conf inst ground_truth check
  let supervision := deepcopy supervision
  let mask_unnanotated := supervision.map Option.isNone
  let supervision := maskedAssign supervision mask_unnanotated (-1)
  Except.map SupervisionReturn.ints (astypeInt supervision)

/-- Embedding of the Python attribute lookup of the name `get_supervision` on
a configuration object, resolved by the paradigm of its class:
`SupervisedClassifierConf` (source line 192) and
`SemiSupervisedClassifierConf` (source line 245) override the base method,
while `UnsupervisedClassifierConf` defines a method named `supervision`
instead (source line 222), so on an unsupervised configuration the lookup
finds the base method (source lines 175-177), which returns the raw array. -/
def ClassifierConf.get_supervision_virtual (conf : ClassifierConf) (inst : Instances)
    (ground_truth : Bool) (check : Bool) : Except PyError SupervisionReturn :=
  match get_classifier_type conf.cls.toPyClass with
  | .ok (some .supervised) =>
      SupervisedClassifierConf.get_supervision conf inst ground_truth check
  | .ok (some .semisupervised) =>
      SemiSupervisedClassifierConf.get_supervision conf inst ground_truth check
  | _ => .ok (.raw (ClassifierConf.get_supervision conf inst ground_truth check))

/-- Embedding of the `exportFieldMethod` markers of the generic export
mechanism (external `secuml.core.conf`; spec section 6). -/
inductive exportFieldMethod where
  | obj
  | primitive
deriving DecidableEq, Repr

/-- Embedding of `ClassifierConf.fields_to_export` (source lines 138-143):
the ordered export field list. -/
def ClassifierConf.fields_to_export : List (String × exportFieldMethod) :=
  [("hyperparam_conf", .obj),
   ("multiclass", .primitive),
   ("probabilist", .primitive),
   ("feature_importance", .primitive),
   ("model_class_name", .primitive)]

/-- The exported record of a configuration (spec section 6, record form):
required keys `__type__`, `multiclass`, `hyperparam_conf`, plus the
remaining fields of `ClassifierConf.fields_to_export`. -/
structure ConfJson where
  type_ : String
  hyperparam_conf : HyperparamConf
  multiclass : Bool
  probabilist : Bool
  feature_importance : Option String
  model_class_name : String
deriving DecidableEq, Repr

/-- Modelled from the spec: the generic exporter (external `Conf` mechanism)
writes `__type__` (the class name, which is the registry key) and each field
named by `ClassifierConf.fields_to_export`. -/
def ClassifierConf.to_json (c : ClassifierConf) : ConfJson :=
  { type_ := c.cls.name
    hyperparam_conf := c.hyperparam_conf
    multiclass := c.multiclass
    probabilist := c.cls.probabilist
    feature_importance := c.cls.feature_importance
    model_class_name := c.cls.model_class_name }

/-- Modelled from the spec: the per-leaf `from_json(multiclass,
hyperparam_conf, conf_json, logger)` that the factory delegates to (spec
section 4.2) constructs the class with the constructor of its paradigm; the
unsupervised constructor takes no `multiclass` argument (source lines
209-210). A class that is not a concrete paradigm leaf is the abstract base
and cannot be instantiated. -/
def ConfClass.from_json (class_ : ConfClass) (multiclass : Bool) (hyper : HyperparamConf) :
    Except PyError ClassifierConf :=
  match get_classifier_type class_.toPyClass with
  | .ok (some .supervised) => .ok (SupervisedClassifierConf.init class_ multiclass hyper)
  | .ok (some .semisupervised) => .ok (SemiSupervisedClassifierConf.init class_ multiclass hyper)
  | .ok (some .unsupervised) => .ok (UnsupervisedClassifierConf.init class_ hyper)
  | .ok none => .error (.typeError "cannot instantiate an abstract class")
  | .error e => .error e

/-- Embedding of the factory registry `self.methods`: class names mapped to
configuration classes. Registration is external (spec section 3, factory
registry); the dictionary is write-once-then-read-only (spec section 5). -/
structure ClassifierConfFactory where
  methods : List (String × ConfClass)
deriving DecidableEq, Repr

/-- Embedding of the dictionary lookup `self.methods[k]` as an optional
value; keys are unique in a Python dictionary, so the first binding wins. -/
def lookupClass : List (String × ConfClass) → String → Option ConfClass
  | [], _ => none
  | (k, c) :: rest, key => if k = key then some c else lookupClass rest key

/-- Modelled from the spec: the base `ConfFactory.get_class` resolves a
registered name to its class, raising `KeyError` when the name is absent. -/
def ClassifierConfFactory.get_class (f : ClassifierConfFactory) (m : String) :
    Except PyError ConfClass :=
  match lookupClass f.methods m with
  | some c => .ok c
  | none => .error (.keyError m)

/-- Embedding of `ClassifierConfFactory.from_json` (source lines 83-87):
resolve the class from the `__type__` key, rebuild the hyperparameter
sub-configuration, and delegate to the `from_json` of the class with the
`multiclass` key. -/
def ClassifierConfFactory.from_json (f : ClassifierConfFactory) (obj : ConfJson) :
    Except PyError ClassifierConf :=
  match lookupClass f.methods obj.type_ with
  | none => .error (.keyError obj.type_)
  | some class_ =>
      class_.from_json obj.multiclass (HyperparamConf.from_json obj.hyperparam_conf)

/-- Embedding of `get_classifier_type(self.get_class(c))` for one registered
name, as evaluated inside the filter of `get_methods` (source line 95). -/
def ClassifierConfFactory.resolve_type (f : ClassifierConfFactory) (m : String) :
    Except PyError (Option ClassifierType) := do
  let c ← f.get_class m
  get_classifier_type c.toPyClass

/-- Embedding of the filtering list comprehension of `get_methods` (source
lines 94-95), evaluated left to right; the first name whose resolution
raises aborts the comprehension. -/
def ClassifierConfFactory.filter_methods (f : ClassifierConfFactory) (ct : ClassifierType) :
    List String → Except PyError (List String)
  | [] => .ok []
  | m :: rest => do
      let tag ← f.resolve_type m
      let rest2 ← f.filter_methods ct rest
      pure (if tag = some ct then m :: rest2 else rest2)

/-- Embedding of `ClassifierConfFactory.get_methods` (source lines 89-95):
all registered names (the base `ConfFactory.get_methods`, modelled from the
spec as the key list of the registry), optionally filtered to the names
whose resolved class has the given paradigm tag. -/
def ClassifierConfFactory.get_methods (f : ClassifierConfFactory)
    (classifier_type : Option ClassifierType) : Except PyError (List String) :=
  let all_classifiers := f.methods.map Prod.fst
  match classifier_type with
  | none => .ok all_classifiers
  | some ct => f.filter_methods ct all_classifiers

/-- Embedding of the Python call `class_(multiclass, hyper_conf, logger)`
(three data arguments) on source line 102: the supervised and
semi-supervised constructors take `(multiclass, hyperparam_conf, logger)`
(source lines 182 and 232) and succeed; the unsupervised constructor takes
only `(hyperparam_conf, logger)` (source line 209), so the call raises an
arity `TypeError`; the abstract base cannot be instantiated. -/
def ConfClass.call3 (class_ : ConfClass) (multiclass : Bool) (hyper : HyperparamConf) :
    Except PyError ClassifierConf :=
  match get_classifier_type class_.toPyClass with
  | .ok (some .supervised) => .ok (SupervisedClassifierConf.init class_ multiclass hyper)
  | .ok (some .semisupervised) => .ok (SemiSupervisedClassifierConf.init class_ multiclass hyper)
  | .ok (some .unsupervised) =>
      .error (.typeError "__init__() takes 3 positional arguments but 4 were given")
  | .ok none => .error (.typeError "cannot instantiate an abstract class")
  | .error e => .error e

/-- Embedding of `ClassifierConfFactory.get_default` (source lines 97-102):
resolve the class, build a default hyperparameter sub-configuration, and
call the class with three positional data arguments. The lazily created
global factory of `get_factory()` is passed explicitly. -/
def ClassifierConfFactory.get_default (f : ClassifierConfFactory) (model_class : String)
    (num_folds : Nat) (n_jobs : Int) (multiclass : Bool) : Except PyError ClassifierConf := do
  let class_ ← f.get_class model_class
  let hyper := HyperparamConf.get_default num_folds n_jobs multiclass
  class_.call3 multiclass hyper

/-- A store of array objects, used to track which array object a call
mutates; references are indices into the store. -/
structure Heap where
  cells : List (List (Option Int))
deriving DecidableEq, Repr

/-- Read the array behind a reference. -/
def Heap.read (h : Heap) (r : Nat) : List (Option Int) := h.cells.getD r []

/-- Overwrite the array behind a reference in place. -/
def Heap.write (h : Heap) (r : Nat) (v : List (Option Int)) : Heap := ⟨h.cells.set r v⟩

/-- Allocate a fresh array object, returning the new store and a reference. -/
def Heap.alloc (h : Heap) (v : List (Option Int)) : Heap × Nat :=
  (⟨h.cells ++ [v]⟩, h.cells.length)

/-- Modelled from the spec: an instances object whose two annotation views
hold references to their label arrays (the worst case for the caller, in
which `annotations.get_supervision` hands back the stored array object
itself rather than a fresh one). -/
structure InstancesH where
  annotations_ref : Nat
  ground_truth_ref : Nat
deriving DecidableEq, Repr

/-- Embedding of `SemiSupervisedClassifierConf.get_supervision` (source lines
245-252) with the array store made explicit: the base call yields the array
object held by the requested annotation view; `deepcopy` (source line 249)
allocates a fresh array with the same contents; the masked assignment
(source line 251) writes only to the fresh array. Returns the
integer-cast result together with the final store. -/
def SemiSupervisedClassifierConf.get_supervision_heap (inst : InstancesH) (h : Heap)
    (ground_truth : Bool) (check : Bool) : Except PyError (List Int) × Heap :=
  let r := if ground_truth then inst.ground_truth_ref else inst.annotations_ref
  let supervision := h.read r
  let copied := h.alloc (deepcopy supervision)
  let h1 := copied.1
  let r1 := copied.2
  let arr := h1.read r1
  let h2 := h1.write r1 (maskedAssign arr (arr.map Option.isNone) (-1))
  (astypeInt (h2.read r1), h2)

/-! ### Shared helper lemmas -/

theorem astypeInt_map_some (codes : List Int) : astypeInt (codes.map some) = .ok codes := by
  induction codes with
  | nil => rfl
  | cons c cs ih => simp [astypeInt, ih, Except.map]

theorem any_isNone_map_some (codes : List Int) :
    (codes.map some).any Option.isNone = false := by
  induction codes with
  | nil => rfl
  | cons c cs ih => simp [ih]

theorem maskedAssign_self_mask_cons (x : Option Int) (xs : List (Option Int)) (c : Int) :
    maskedAssign (x :: xs) ((x :: xs).map Option.isNone) c =
      (if x.isNone then some c else x) :: maskedAssign xs (xs.map Option.isNone) c := by
  simp [maskedAssign]

/-- Substituting the sentinel into every unset entry and integer-casting
always succeeds and computes `Option.getD` with the sentinel pointwise. -/
theorem astypeInt_maskedAssign_sentinel (v : List (Option Int)) (c : Int) :
    astypeInt (maskedAssign v (v.map Option.isNone) c) =
      .ok (v.map (fun x => x.getD c)) := by
  induction v with
  | nil => rfl
  | cons x xs ih =>
    rw [maskedAssign_self_mask_cons]
    cases x with
    | none => simp [astypeInt, ih, Except.map]
    | some i => simp [astypeInt, ih, Except.map]

/-- The unchecked value of the embedded semi-supervised extraction: it never
raises, and it maps every unset entry to `-1` and keeps every set entry. -/
theorem semisup_get_supervision_eq (conf : ClassifierConf) (inst : Instances)
    (ground_truth : Bool) (check : Bool) :
    SemiSupervisedClassifierConf.get_supervision conf inst ground_truth check =
      .ok (.ints ((ClassifierConf.get_supervision conf inst ground_truth check).map
        (fun x => x.getD (-1)))) := by
  show Except.map SupervisionReturn.ints
      (astypeInt (maskedAssign (ClassifierConf.get_supervision conf inst ground_truth check)
        ((ClassifierConf.get_supervision conf inst ground_truth check).map Option.isNone)
        (-1))) = _
  rw [astypeInt_maskedAssign_sentinel]
  rfl

theorem getD_map_getD (f : Option Int → Int) (l : List (Option Int)) (i : Nat)
    (hi : i < l.length) :
    (l.map f).getD i 0 = f (l.getD i none) := by
  induction l generalizing i with
  | nil => simp at hi
  | cons x xs ih =>
    cases i with
    | zero => rfl
    | succ n => simpa [List.getD_cons_succ] using ih n (by simpa using hi)

theorem lookupClass_mem {l : List (String × ConfClass)} {k : String} {c : ConfClass}
    (h : lookupClass l k = some c) : (k, c) ∈ l := by
  induction l with
  | nil => simp [lookupClass] at h
  | cons p rest ih =>
    rw [lookupClass] at h
    by_cases hk : p.1 = k
    · rw [if_pos hk] at h
      obtain ⟨a, b⟩ := p
      injection h with hb
      subst hb
      subst hk
      exact List.mem_cons_self _ _
    · rw [if_neg hk] at h
      exact List.mem_cons_of_mem p (ih h)

theorem mem_keys_lookupClass {l : List (String × ConfClass)} {k : String}
    (h : k ∈ l.map Prod.fst) : ∃ c, lookupClass l k = some c := by
  induction l with
  | nil => simp at h
  | cons p rest ih =>
    by_cases hk : p.1 = k
    · exact ⟨p.2, by rw [lookupClass, if_pos hk]⟩
    · have hmem : k ∈ rest.map Prod.fst := by
        rcases List.mem_map.mp h with ⟨q, hq, hq1⟩
        rcases List.mem_cons.mp hq with rfl | hq2
        · exact absurd hq1 hk
        · exact List.mem_map.mpr ⟨q, hq2, hq1⟩
      rcases ih hmem with ⟨c, hc⟩
      exact ⟨c, by rw [lookupClass, if_neg hk]; exact hc⟩

/-- Derivation from any of the three paradigm bases entails derivation from
the abstract base `ClassifierConf`. -/
theorem issubclass_classifierConf_of_paradigm (c : PyClass) :
    (issubclass c .unsupervisedBase = true → issubclass c .classifierConfBase = true) ∧
    (issubclass c .semiSupervisedBase = true → issubclass c .classifierConfBase = true) ∧
    (issubclass c .supervisedBase = true → issubclass c .classifierConfBase = true) := by
  induction c with
  | other n => simp [issubclass]
  | classifierConfBase => simp [issubclass]
  | supervisedBase => simp [issubclass]
  | unsupervisedBase => simp [issubclass]
  | semiSupervisedBase => simp [issubclass]
  | sub n p ih =>
    refine ⟨?_, ?_, ?_⟩ <;> intro h <;> rw [issubclass] at h ⊢ <;>
      rcases Bool.or_eq_true_iff.mp h with h1 | h2
    · simp at h1
    · exact Bool.or_eq_true_iff.mpr (Or.inr (ih.1 h2))
    · simp at h1
    · exact Bool.or_eq_true_iff.mpr (Or.inr (ih.2.1 h2))
    · simp at h1
    · exact Bool.or_eq_true_iff.mpr (Or.inr (ih.2.2 h2))

/-! ### Concrete example data, shared by counterexamples and witnesses -/

/-- A concrete supervised leaf class. -/
def exSupCls : ConfClass :=
  ⟨"LogisticRegressionConf", .supervisedBase, "LogisticRegression", true, some "weight"⟩

/-- A concrete semi-supervised leaf class. -/
def exSemiCls : ConfClass :=
  ⟨"LabelPropagationConf", .semiSupervisedBase, "LabelPropagation", true, none⟩

/-- A concrete unsupervised leaf class. -/
def exUnsupCls : ConfClass :=
  ⟨"IsolationForestConf", .unsupervisedBase, "IsolationForest", false, some "score"⟩

/-- A concrete hyperparameter sub-configuration. -/
def exHyper : HyperparamConf := ⟨4, 1, [("n_estimators", "100")]⟩

/-- A concrete supervised configuration with `multiclass = false`. -/
def exSupConf : ClassifierConf := SupervisedClassifierConf.init exSupCls false exHyper

/-- A concrete supervised configuration with `multiclass = true`. -/
def exSupConfMc : ClassifierConf := SupervisedClassifierConf.init exSupCls true exHyper

/-- A concrete semi-supervised configuration. -/
def exSemiConf : ClassifierConf := SemiSupervisedClassifierConf.init exSemiCls false exHyper

/-- A concrete unsupervised configuration. -/
def exUnsupConf : ClassifierConf := UnsupervisedClassifierConf.init exUnsupCls exHyper

/-- A fully labeled two-class dataset (both views). -/
def exInstancesTwoClass : Instances :=
  ⟨⟨[some 0, some 1], [some 2, some 3]⟩, ⟨[some 0, some 1], [some 2, some 3]⟩⟩

/-- A fully labeled dataset carrying a single label value. -/
def exInstancesOneClass : Instances :=
  ⟨⟨[some 0, some 0], [some 0, some 0]⟩, ⟨[some 0, some 0], [some 0, some 0]⟩⟩

/-- A dataset with one set and one unset label (both views). -/
def exInstancesPartial : Instances :=
  ⟨⟨[some 1, none], [some 1, none]⟩, ⟨[some 1, none], [some 1, none]⟩⟩

/-- A concrete factory registry holding one leaf of each paradigm. -/
def exFactory : ClassifierConfFactory :=
  ⟨[("LogisticRegressionConf", exSupCls),
    ("LabelPropagationConf", exSemiCls),
    ("IsolationForestConf", exUnsupCls)]⟩

/-- Zeta-reduced form of the embedded supervised extraction. -/
theorem supervised_get_supervision_unfold (conf : ClassifierConf) (inst : Instances)
    (ground_truth check : Bool) :
    SupervisedClassifierConf.get_supervision conf inst ground_truth check =
      (if (ClassifierConf.get_supervision conf inst ground_truth check).any Option.isNone then
        .error .missingAnnotations
      else if check &&
          decide ((ClassifierConf.get_supervision conf inst ground_truth check).dedup.length < 2) then
        .error .atLeastTwoClasses
      else if conf.multiclass then
        .ok (.strs (astypeStr (ClassifierConf.get_supervision conf inst ground_truth check)))
      else
        Except.map SupervisionReturn.ints
          (astypeInt (ClassifierConf.get_supervision conf inst ground_truth check))) := rfl

/-! ### Claim theorems -/

/-- Claim C1, counterexample to the claim as stated: on an unsupervised
configuration, calling the operation named `get_supervision` (the base seam)
with `ground_truth = false` does not return Python `None`; because
`UnsupervisedClassifierConf` names its method `supervision` instead of
`get_supervision` (source line 222), the virtual lookup finds the base
method, which returns the raw annotation array. -/
theorem unsupervised_get_supervision_counterexample :
    exUnsupConf.get_supervision_virtual exInstancesTwoClass false true =
      .ok (.raw [some 0, some 1]) ∧
    exUnsupConf.get_supervision_virtual exInstancesTwoClass false true ≠
      .ok .pyNone := by
  decide

/-- Claim C1 (amended): the unsupervised paradigm rule is implemented by the
method named `supervision` (source lines 222-227): with `ground_truth = false`
it returns no vector, and with `ground_truth = true` on a fully labeled
dataset it returns the integer-coded label vector without enforcing the
two-class minimum (the statement holds for any `codes`, including a
single-class list). This method does not override the base seam: the method
`get_supervision` on an unsupervised configuration resolves to the base rule
and returns the raw annotation array. -/
theorem unsupervised_supervision_paradigm_rule (conf : ClassifierConf) (inst : Instances)
    (check : Bool) (codes : List Int) :
    (UnsupervisedClassifierConf.supervision conf inst false check = .ok .pyNone) ∧
    (ClassifierConf.get_supervision conf inst true check = codes.map some →
      UnsupervisedClassifierConf.supervision conf inst true check = .ok (.ints codes)) ∧
    (get_classifier_type conf.cls.toPyClass = .ok (some .unsupervised) →
      ∀ ground_truth : Bool,
        conf.get_supervision_virtual inst ground_truth check =
          .ok (.raw (ClassifierConf.get_supervision conf inst ground_truth check))) := by
  refine ⟨rfl, ?_, ?_⟩
  · intro h
    simp [UnsupervisedClassifierConf.supervision, h, astypeInt_map_some, Except.map]
  · intro h ground_truth
    simp [ClassifierConf.get_supervision_virtual, h]

/-- Claim C1 witness: the amended claim evaluated on a concrete unsupervised
configuration and a fully labeled single-class dataset (exhibiting the
absence of the two-class check). -/
theorem unsupervised_supervision_paradigm_rule_witness :
    UnsupervisedClassifierConf.supervision exUnsupConf exInstancesOneClass false true =
      .ok .pyNone ∧
    UnsupervisedClassifierConf.supervision exUnsupConf exInstancesOneClass true true =
      .ok (.ints [0, 0]) ∧
    exUnsupConf.get_supervision_virtual exInstancesOneClass false true =
      .ok (.raw (ClassifierConf.get_supervision exUnsupConf exInstancesOneClass false true)) := by
  have h := unsupervised_supervision_paradigm_rule exUnsupConf exInstancesOneClass true [0, 0]
  exact ⟨h.1, h.2.1 (by decide), h.2.2 (by decide) false⟩

/-- Claim C2: supervised extraction succeeds on a fully labeled dataset with
at least two distinct values, returning integer codes when `multiclass` is
false and string codes when it is true; any unset label raises
`MissingAnnotations` regardless of `check`; with `check` and fewer than two
distinct values on a fully labeled dataset it raises `AtLeastTwoClasses`. -/
theorem supervised_get_supervision_spec (conf : ClassifierConf) (inst : Instances)
    (ground_truth check : Bool) (codes : List Int) :
    (ClassifierConf.get_supervision conf inst ground_truth check = codes.map some →
      2 ≤ (ClassifierConf.get_supervision conf inst ground_truth check).dedup.length →
      conf.multiclass = false →
      SupervisedClassifierConf.get_supervision conf inst ground_truth check =
        .ok (.ints codes)) ∧
    (ClassifierConf.get_supervision conf inst ground_truth check = codes.map some →
      2 ≤ (ClassifierConf.get_supervision conf inst ground_truth check).dedup.length →
      conf.multiclass = true →
      SupervisedClassifierConf.get_supervision conf inst ground_truth check =
        .ok (.strs (codes.map (fun i => toString i)))) ∧
    (none ∈ ClassifierConf.get_supervision conf inst ground_truth check →
      SupervisedClassifierConf.get_supervision conf inst ground_truth check =
        .error .missingAnnotations) ∧
    (ClassifierConf.get_supervision conf inst ground_truth check = codes.map some →
      (ClassifierConf.get_supervision conf inst ground_truth check).dedup.length < 2 →
      check = true →
      SupervisedClassifierConf.get_supervision conf inst ground_truth check =
        .error .atLeastTwoClasses) := by
  refine ⟨?_, ?_, ?_, ?_⟩
  · intro h1 h2 h3
    rw [h1] at h2
    rw [supervised_get_supervision_unfold, h1, h3]
    simp [any_isNone_map_some, astypeInt_map_some, Nat.not_lt.mpr h2, Except.map]
  · intro h1 h2 h3
    rw [h1] at h2
    rw [supervised_get_supervision_unfold, h1, h3]
    simp [any_isNone_map_some, Nat.not_lt.mpr h2, astypeStr, Function.comp]
  · intro h
    have hany : (ClassifierConf.get_supervision conf inst ground_truth check).any
        Option.isNone = true :=
      List.any_eq_true.mpr ⟨none, h, rfl⟩
    rw [supervised_get_supervision_unfold, hany]
    rfl
  · intro h1 h2 h3
    rw [h1] at h2
    rw [supervised_get_supervision_unfold, h1, h3]
    simp [any_isNone_map_some, h2]

/-- Claim C2 witness: the four parts evaluated on concrete supervised
configurations and datasets. -/
theorem supervised_get_supervision_spec_witness :
    SupervisedClassifierConf.get_supervision exSupConf exInstancesTwoClass false true =
      .ok (.ints [0, 1]) ∧
    SupervisedClassifierConf.get_supervision exSupConfMc exInstancesTwoClass false true =
      .ok (.strs ([2, 3].map (fun i => toString i))) ∧
    SupervisedClassifierConf.get_supervision exSupConf exInstancesPartial false false =
      .error .missingAnnotations ∧
    SupervisedClassifierConf.get_supervision exSupConf exInstancesOneClass false true =
      .error .atLeastTwoClasses := by
  refine ⟨?_, ?_, ?_, ?_⟩
  · exact (supervised_get_supervision_spec exSupConf exInstancesTwoClass false true
      [0, 1]).1 (by decide) (by decide) (by decide)
  · exact (supervised_get_supervision_spec exSupConfMc exInstancesTwoClass false true
      [2, 3]).2.1 (by decide) (by decide) (by decide)
  · exact (supervised_get_supervision_spec exSupConf exInstancesPartial false false
      []).2.2.1 (by decide)
  · exact (supervised_get_supervision_spec exSupConf exInstancesOneClass false true
      [0, 0]).2.2.2 (by decide) (by decide) (by decide)

/-- Claim C3, counterexample to the claim as stated: semi-supervised
extraction on a dataset with an unset label does not fail with the
missing-annotations error; it succeeds and substitutes the sentinel,
because the base method it delegates to (source lines 175-177) performs no
missing-annotation check. -/
theorem semisupervised_missing_check_counterexample :
    SemiSupervisedClassifierConf.get_supervision exSemiConf exInstancesPartial false true =
      .ok (.ints [1, -1]) ∧
    SemiSupervisedClassifierConf.get_supervision exSemiConf exInstancesPartial false true ≠
      .error .missingAnnotations := by
  decide

/-- Claim C3 (amended): semi-supervised extraction delegates to the base
`ClassifierConf.get_supervision`, which performs no missing-annotation
check, so it never fails: it substitutes the sentinel `-1` for every unset
label and keeps every set label, and applies no plurality check. -/
theorem semisupervised_get_supervision_total (conf : ClassifierConf) (inst : Instances)
    (ground_truth check : Bool) :
    SemiSupervisedClassifierConf.get_supervision conf inst ground_truth check =
      .ok (.ints ((ClassifierConf.get_supervision conf inst ground_truth check).map
        (fun x => x.getD (-1)))) :=
  semisup_get_supervision_eq conf inst ground_truth check

/-- Claim C4: on any dataset with some unset labels, semi-supervised
extraction returns a vector in which every unset position equals `-1` and
every set position equals the integer coding of its label. -/
theorem semisupervised_sentinel_positions (conf : ClassifierConf) (inst : Instances)
    (ground_truth check : Bool)
    (hunset : none ∈ ClassifierConf.get_supervision conf inst ground_truth check) :
    ∃ v : List Int,
      SemiSupervisedClassifierConf.get_supervision conf inst ground_truth check =
        .ok (.ints v) ∧
      v.length = (ClassifierConf.get_supervision conf inst ground_truth check).length ∧
      ∀ i, i < v.length →
        ((ClassifierConf.get_supervision conf inst ground_truth check).getD i none = none →
          v.getD i 0 = -1) ∧
        ∀ l : Int,
          (ClassifierConf.get_supervision conf inst ground_truth check).getD i none = some l →
            v.getD i 0 = l := by
  refine ⟨(ClassifierConf.get_supervision conf inst ground_truth check).map
      (fun x => x.getD (-1)),
    semisup_get_supervision_eq conf inst ground_truth check, by simp, ?_⟩
  intro i hi
  rw [List.length_map] at hi
  constructor
  · intro h0
    rw [getD_map_getD _ _ i hi, h0]
    rfl
  · intro l hl
    rw [getD_map_getD _ _ i hi, hl]
    rfl

/-- Claim C4 witness: the sentinel property evaluated on a concrete
semi-supervised configuration and a partially labeled dataset. -/
theorem semisupervised_sentinel_positions_witness :
    ∃ v : List Int,
      SemiSupervisedClassifierConf.get_supervision exSemiConf exInstancesPartial false true =
        .ok (.ints v) ∧
      v.length =
        (ClassifierConf.get_supervision exSemiConf exInstancesPartial false true).length ∧
      ∀ i, i < v.length →
        ((ClassifierConf.get_supervision exSemiConf exInstancesPartial false true).getD i none =
            none → v.getD i 0 = -1) ∧
        ∀ l : Int,
          (ClassifierConf.get_supervision exSemiConf exInstancesPartial false true).getD i none =
              some l → v.getD i 0 = l :=
  semisupervised_sentinel_positions exSemiConf exInstancesPartial false true (by decide)

/-- Claim C5: exporting a configuration (the ordered export field list) and
reloading the record through the factory `from_json` yields a behaviorally
equivalent configuration: same model class name, same `multiclass` flag,
same hyperparameter values. The hypotheses say the class of the
configuration is registered under its name, is a concrete paradigm leaf, and
satisfies the constructor invariant that an unsupervised configuration has
`multiclass = false` (which every construction path establishes). -/
theorem conf_round_trip (f : ClassifierConfFactory) (conf : ClassifierConf)
    (t : ClassifierType)
    (hreg : lookupClass f.methods conf.cls.name = some conf.cls)
    (htag : get_classifier_type conf.cls.toPyClass = .ok (some t))
    (hinv : t = ClassifierType.unsupervised → conf.multiclass = false) :
    ∃ c2 : ClassifierConf,
      f.from_json conf.to_json = .ok c2 ∧
      c2.cls.model_class_name = conf.cls.model_class_name ∧
      c2.multiclass = conf.multiclass ∧
      c2.hyperparam_conf = conf.hyperparam_conf := by
  have h1 : f.from_json conf.to_json =
      conf.cls.from_json conf.multiclass conf.hyperparam_conf := by
    unfold ClassifierConfFactory.from_json
    rw [show conf.to_json.type_ = conf.cls.name from rfl, hreg]
    rfl
  cases t with
  | supervised =>
    refine ⟨SupervisedClassifierConf.init conf.cls conf.multiclass conf.hyperparam_conf,
      ?_, rfl, rfl, rfl⟩
    rw [h1]
    unfold ConfClass.from_json
    rw [htag]
  | semisupervised =>
    refine ⟨SemiSupervisedClassifierConf.init conf.cls conf.multiclass conf.hyperparam_conf,
      ?_, rfl, rfl, rfl⟩
    rw [h1]
    unfold ConfClass.from_json
    rw [htag]
  | unsupervised =>
    refine ⟨UnsupervisedClassifierConf.init conf.cls conf.hyperparam_conf, ?_, rfl, ?_, rfl⟩
    · rw [h1]
      unfold ConfClass.from_json
      rw [htag]
    · exact (hinv rfl).symm

/-- Claim C5 witness: the round trip evaluated on a concrete multiclass
supervised configuration registered in a concrete factory. -/
theorem conf_round_trip_witness :
    ∃ c2 : ClassifierConf,
      exFactory.from_json exSupConfMc.to_json = .ok c2 ∧
      c2.cls.model_class_name = exSupConfMc.cls.model_class_name ∧
      c2.multiclass = exSupConfMc.multiclass ∧
      c2.hyperparam_conf = exSupConfMc.hyperparam_conf :=
  conf_round_trip exFactory exSupConfMc .supervised (by decide) (by decide) (by decide)

/-- Claim C6: `get_classifier_type` tests derivation in the fixed order
unsupervised, semi-supervised, supervised and returns the matching paradigm
tag; a class deriving from none of the three but still from the
classifier-configuration base yields the undetermined value (Python `None`);
a class that is not a classifier configuration at all raises `ValueError`
naming the offending type. -/
theorem get_classifier_type_spec (c : PyClass) :
    (issubclass c .unsupervisedBase = true →
      get_classifier_type c = .ok (some .unsupervised)) ∧
    (issubclass c .unsupervisedBase = false →
      issubclass c .semiSupervisedBase = true →
      get_classifier_type c = .ok (some .semisupervised)) ∧
    (issubclass c .unsupervisedBase = false →
      issubclass c .semiSupervisedBase = false →
      issubclass c .supervisedBase = true →
      get_classifier_type c = .ok (some .supervised)) ∧
    (issubclass c .unsupervisedBase = false →
      issubclass c .semiSupervisedBase = false →
      issubclass c .supervisedBase = false →
      issubclass c .classifierConfBase = true →
      get_classifier_type c = .ok none) ∧
    (issubclass c .classifierConfBase = false →
      get_classifier_type c =
        .error (.valueError (c.pyName ++ " is not a classifier configuration."))) := by
  refine ⟨?_, ?_, ?_, ?_, ?_⟩
  · intro h1
    simp [get_classifier_type, h1]
  · intro h1 h2
    simp [get_classifier_type, h1, h2]
  · intro h1 h2 h3
    simp [get_classifier_type, h1, h2, h3]
  · intro h1 h2 h3 h4
    simp [get_classifier_type, h1, h2, h3, h4]
  · intro h
    have hu : issubclass c .unsupervisedBase = false := by
      cases hx : issubclass c .unsupervisedBase with
      | false => rfl
      | true =>
        rw [(issubclass_classifierConf_of_paradigm c).1 hx] at h
        exact absurd h (by simp)
    have hsem : issubclass c .semiSupervisedBase = false := by
      cases hx : issubclass c .semiSupervisedBase with
      | false => rfl
      | true =>
        rw [(issubclass_classifierConf_of_paradigm c).2.1 hx] at h
        exact absurd h (by simp)
    have hsup : issubclass c .supervisedBase = false := by
      cases hx : issubclass c .supervisedBase with
      | false => rfl
      | true =>
        rw [(issubclass_classifierConf_of_paradigm c).2.2 hx] at h
        exact absurd h (by simp)
    simp [get_classifier_type, hu, hsem, hsup, h]

/-- Claim C6 witness: each of the five branches evaluated on a concrete
class. -/
theorem get_classifier_type_spec_witness :
    get_classifier_type (PyClass.sub "IsolationForestConf" .unsupervisedBase) =
      .ok (some .unsupervised) ∧
    get_classifier_type (PyClass.sub "LabelPropagationConf" .semiSupervisedBase) =
      .ok (some .semisupervised) ∧
    get_classifier_type (PyClass.sub "LogisticRegressionConf" .supervisedBase) =
      .ok (some .supervised) ∧
    get_classifier_type PyClass.classifierConfBase = .ok none ∧
    get_classifier_type (PyClass.other "GaussianMixture") =
      .error (.valueError ((PyClass.other "GaussianMixture").pyName ++
        " is not a classifier configuration.")) := by
  refine ⟨?_, ?_, ?_, ?_, ?_⟩
  · exact (get_classifier_type_spec _).1 (by decide)
  · exact (get_classifier_type_spec _).2.1 (by decide) (by decide)
  · exact (get_classifier_type_spec _).2.2.1 (by decide) (by decide) (by decide)
  · exact (get_classifier_type_spec _).2.2.2.1 (by decide) (by decide) (by decide) (by decide)
  · exact (get_classifier_type_spec _).2.2.2.2 (by decide)

/-- Decidable test that a configuration class is a concrete paradigm leaf:
its paradigm classification succeeds with some tag. -/
def hasLeafTag (c : ConfClass) : Bool :=
  match get_classifier_type c.toPyClass with
  | .ok (some _) => true
  | _ => false

/-- Resolution of a registered name succeeds with some paradigm tag whenever
every registered class is a concrete paradigm leaf. -/
theorem resolve_type_leaf (f : ClassifierConfFactory)
    (H : ∀ p ∈ f.methods, hasLeafTag p.2 = true) {m : String}
    (hm : m ∈ f.methods.map Prod.fst) :
    ∃ t : ClassifierType, f.resolve_type m = .ok (some t) := by
  rcases mem_keys_lookupClass hm with ⟨c, hc⟩
  have hleaf := H (m, c) (lookupClass_mem hc)
  have hres : f.resolve_type m = get_classifier_type c.toPyClass := by
    unfold ClassifierConfFactory.resolve_type ClassifierConfFactory.get_class
    rw [hc]
    rfl
  unfold hasLeafTag at hleaf
  rcases hg : get_classifier_type c.toPyClass with e | o
  · rw [hg] at hleaf
    exact absurd hleaf (by simp)
  · rcases o with _ | t
    · rw [hg] at hleaf
      exact absurd hleaf (by simp)
    · exact ⟨t, by rw [hres, hg]⟩

/-- The filtering comprehension of `get_methods` equals a `List.filter` when
every name in the list resolves to some paradigm tag. -/
theorem filter_methods_eq (f : ClassifierConfFactory) (ct : ClassifierType)
    (L : List String)
    (hL : ∀ m ∈ L, ∃ t : ClassifierType, f.resolve_type m = .ok (some t)) :
    f.filter_methods ct L =
      .ok (L.filter (fun m => decide (f.resolve_type m = .ok (some ct)))) := by
  induction L with
  | nil => rfl
  | cons m rest ih =>
    rcases hL m (List.mem_cons_self m rest) with ⟨t, ht⟩
    have hrest := ih (fun x hx => hL x (List.mem_cons_of_mem m hx))
    by_cases htc : t = ct
    · subst htc
      simp [ClassifierConfFactory.filter_methods, ht, hrest, List.filter_cons,
        Bind.bind, Except.bind, Pure.pure, Except.pure]
    · simp [ClassifierConfFactory.filter_methods, ht, hrest, List.filter_cons, htc,
        Bind.bind, Except.bind, Pure.pure, Except.pure]

/-- Claim C7: when every registered class is a concrete paradigm leaf,
`get_methods` without a filter returns all registered names, `get_methods`
with a paradigm returns exactly the subset of those names whose resolved
class has that paradigm tag, and each registered name carries exactly one
paradigm tag, so the three filtered lists partition the full list. -/
theorem get_methods_partition (f : ClassifierConfFactory)
    (H : ∀ p ∈ f.methods, hasLeafTag p.2 = true) :
    f.get_methods none = .ok (f.methods.map Prod.fst) ∧
    (∀ ct : ClassifierType,
      f.get_methods (some ct) =
        .ok ((f.methods.map Prod.fst).filter
          (fun m => decide (f.resolve_type m = .ok (some ct))))) ∧
    (∀ m ∈ f.methods.map Prod.fst,
      ∃! t : ClassifierType, f.resolve_type m = .ok (some t)) := by
  refine ⟨rfl, ?_, ?_⟩
  · intro ct
    exact filter_methods_eq f ct _ (fun m hm => resolve_type_leaf f H hm)
  · intro m hm
    rcases resolve_type_leaf f H hm with ⟨t, ht⟩
    refine ⟨t, ht, ?_⟩
    intro t2 ht2
    rw [ht] at ht2
    injection ht2 with h3
    injection h3 with h4
    exact h4.symm

/-- Claim C7 witness: the supervised filter evaluated on a concrete registry
holding one leaf of each paradigm. -/
theorem get_methods_partition_witness :
    exFactory.get_methods (some .supervised) =
      .ok ((exFactory.methods.map Prod.fst).filter
        (fun m => decide (exFactory.resolve_type m = .ok (some .supervised)))) :=
  (get_methods_partition exFactory (by decide)).2.1 .supervised

/-- Claim C8: every unsupervised configuration has `multiclass = false`: the
unsupervised constructor takes no `multiclass` argument and hard-codes
`False` (source lines 209-210), and the deserialization path for an
unsupervised leaf routes through that constructor, so no caller can produce
an unsupervised configuration with `multiclass = true`. -/
theorem unsupervised_multiclass_false (cls : ConfClass) (hyper : HyperparamConf) :
    (UnsupervisedClassifierConf.init cls hyper).multiclass = false ∧
    (∀ (mc : Bool) (c : ClassifierConf),
      get_classifier_type cls.toPyClass = .ok (some .unsupervised) →
      cls.from_json mc hyper = .ok c → c.multiclass = false) := by
  refine ⟨rfl, ?_⟩
  intro mc c htag h
  unfold ConfClass.from_json at h
  rw [htag] at h
  injection h with h2
  rw [← h2]
  rfl

/-- Claim C8 witness: the invariant evaluated on a concrete unsupervised
class, via the deserialization path with `multiclass = true` requested. -/
theorem unsupervised_multiclass_false_witness :
    (UnsupervisedClassifierConf.init exUnsupCls exHyper).multiclass = false :=
  (unsupervised_multiclass_false exUnsupCls exHyper).2 true
    (UnsupervisedClassifierConf.init exUnsupCls exHyper) (by decide) (by decide)

/-- Claim C9: `get_default` calls the resolved class with three positional
data arguments, so it constructs a configuration exactly when the resolved
class is a supervised or semi-supervised leaf, and it fails with an arity
`TypeError` for every unsupervised class, whose constructor accepts one
data argument fewer (source lines 209-210). -/
theorem get_default_arity (f : ClassifierConfFactory) (m : String)
    (num_folds : Nat) (n_jobs : Int) (mc : Bool) (cls : ConfClass)
    (hres : lookupClass f.methods m = some cls) :
    (get_classifier_type cls.toPyClass = .ok (some .supervised) →
      f.get_default m num_folds n_jobs mc =
        .ok (SupervisedClassifierConf.init cls mc
          (HyperparamConf.get_default num_folds n_jobs mc))) ∧
    (get_classifier_type cls.toPyClass = .ok (some .semisupervised) →
      f.get_default m num_folds n_jobs mc =
        .ok (SemiSupervisedClassifierConf.init cls mc
          (HyperparamConf.get_default num_folds n_jobs mc))) ∧
    (get_classifier_type cls.toPyClass = .ok (some .unsupervised) →
      f.get_default m num_folds n_jobs mc =
        .error (.typeError "__init__() takes 3 positional arguments but 4 were given")) ∧
    (∀ c : ClassifierConf, f.get_default m num_folds n_jobs mc = .ok c →
      get_classifier_type cls.toPyClass = .ok (some .supervised) ∨
      get_classifier_type cls.toPyClass = .ok (some .semisupervised)) := by
  have hgd : f.get_default m num_folds n_jobs mc =
      cls.call3 mc (HyperparamConf.get_default num_folds n_jobs mc) := by
    unfold ClassifierConfFactory.get_default ClassifierConfFactory.get_class
    rw [hres]
    rfl
  refine ⟨?_, ?_, ?_, ?_⟩
  · intro h
    rw [hgd]
    unfold ConfClass.call3
    rw [h]
  · intro h
    rw [hgd]
    unfold ConfClass.call3
    rw [h]
  · intro h
    rw [hgd]
    unfold ConfClass.call3
    rw [h]
  · intro c hc
    rw [hgd] at hc
    unfold ConfClass.call3 at hc
    rcases hg : get_classifier_type cls.toPyClass with e | o
    · rw [hg] at hc
      cases hc
    · rcases o with _ | t
      · rw [hg] at hc
        cases hc
      · cases t with
        | unsupervised =>
          rw [hg] at hc
          cases hc
        | semisupervised =>
          right
          rfl
        | supervised =>
          left
          rfl

/-- Claim C9 witness: `get_default` evaluated on a concrete registry, once
for a supervised leaf (succeeds) and once for an unsupervised leaf (arity
error). -/
theorem get_default_arity_witness :
    exFactory.get_default "LogisticRegressionConf" 4 1 false =
      .ok (SupervisedClassifierConf.init exSupCls false
        (HyperparamConf.get_default 4 1 false)) ∧
    exFactory.get_default "IsolationForestConf" 4 1 false =
      .error (.typeError "__init__() takes 3 positional arguments but 4 were given") :=
  ⟨(get_default_arity exFactory "LogisticRegressionConf" 4 1 false exSupCls
      (by decide)).1 (by decide),
   (get_default_arity exFactory "IsolationForestConf" 4 1 false exUnsupCls
      (by decide)).2.2.1 (by decide)⟩

theorem getD_append_lt (l l2 : List (List (Option Int))) (i : Nat) (h : i < l.length) :
    (l ++ l2).getD i [] = l.getD i [] := by
  induction l generalizing i with
  | nil => simp at h
  | cons x xs ih =>
    cases i with
    | zero => rfl
    | succ n => simpa [List.getD_cons_succ] using ih n (by simpa using h)

theorem getD_set_ne (l : List (List (Option Int))) (i j : Nat) (v : List (Option Int))
    (h : i ≠ j) : (l.set j v).getD i [] = l.getD i [] := by
  induction l generalizing i j with
  | nil => rfl
  | cons x xs ih =>
    cases j with
    | zero =>
      cases i with
      | zero => exact absurd rfl h
      | succ n => simp [List.getD_cons_succ]
    | succ k =>
      cases i with
      | zero => rfl
      | succ n =>
        simpa [List.getD_cons_succ] using ih n k (fun he => h (by rw [he]))

/-- Claim C10: the semi-supervised extraction substitutes the sentinel into a
deep copy of the supervision array, so the label arrays held by the
annotation views of the instances are unchanged by the call. -/
theorem semisupervised_no_mutation (inst : InstancesH) (h : Heap)
    (ground_truth check : Bool)
    (h1 : inst.annotations_ref < h.cells.length)
    (h2 : inst.ground_truth_ref < h.cells.length) :
    (SemiSupervisedClassifierConf.get_supervision_heap inst h ground_truth check).2.read
        inst.annotations_ref = h.read inst.annotations_ref ∧
    (SemiSupervisedClassifierConf.get_supervision_heap inst h ground_truth check).2.read
        inst.ground_truth_ref = h.read inst.ground_truth_ref := by
  have key : ∀ r : Nat, r < h.cells.length →
      (SemiSupervisedClassifierConf.get_supervision_heap inst h ground_truth check).2.read r =
        h.read r := by
    intro r hr
    simp only [SemiSupervisedClassifierConf.get_supervision_heap, Heap.write, Heap.alloc,
      Heap.read, deepcopy]
    rw [getD_set_ne _ _ _ _ (Nat.ne_of_lt hr)]
    exact getD_append_lt _ _ _ hr
  exact ⟨key _ h1, key _ h2⟩

/-- A concrete one-array store for the frame-effect witness. -/
def exHeap : Heap := ⟨[[some 1, none]]⟩

/-- A concrete instances object whose two views share the stored array. -/
def exInstancesH : InstancesH := ⟨0, 0⟩

/-- Claim C10 witness: the frame property evaluated on a concrete store. -/
theorem semisupervised_no_mutation_witness :
    (SemiSupervisedClassifierConf.get_supervision_heap exInstancesH exHeap false true).2.read
        exInstancesH.annotations_ref = exHeap.read exInstancesH.annotations_ref ∧
    (SemiSupervisedClassifierConf.get_supervision_heap exInstancesH exHeap false true).2.read
        exInstancesH.ground_truth_ref = exHeap.read exInstancesH.ground_truth_ref :=
  semisupervised_no_mutation exInstancesH exHeap false true (by decide) (by decide)

end SecuML
